import Mathlib

/-!
Shallow embedding of `src/test-python.py` (repository Maple).

The file is a small Python program: module-level constants `DEBUG` and
`MAX_SIZE`, a class `Calculator` with a constructor, an instance method
`add`, a static method `multiply`, and a function `main` that builds a
`Calculator`, binds a series of string and numeric literals, sums a list,
performs exponentiation and floor division, and prints under a boolean
condition.

Modelling conventions:
- Python integers are arbitrary precision, so they are embedded as `Int`.
- The annotations `float` on `multiply` are unenforced hints; no floating
  point arithmetic whose rounding could be observed occurs anywhere in the
  file, so Python floats (the literal `3.14`, the `float`-annotated
  `multiply`) are idealized as exact rationals `ℚ`.
- The complex literal `3 + 4j` is embedded as a pair of rationals.
- The byte string `b"bytes"` is embedded as its list of byte values.
- Python functions read the module's global namespace, so every function
  takes the globals record `Globals` as an explicit first argument (none of
  the functions actually reads it, which is what claim C6 is about).
- The instance method `add` is embedded as a state transformer on the
  receiver: it returns its result together with the (unchanged, since its
  body contains no attribute assignment) receiver.
- `print` is modelled by collecting the printed lines in a list.
- The only partial operation reached by `main` is the floor division
  `y // 3`, which in Python raises `ZeroDivisionError` when the divisor is
  zero; it is embedded as an `Option`-valued function, and `main`
  propagates the failure, so `main` returns `Option`.
-/

/-- The module-level constants of `test-python.py`: `DEBUG = True` and
`MAX_SIZE = 100`. Python functions can read these through the module
namespace, so the embedding threads them through every function. -/
structure Globals where
  DEBUG : Bool
  MAX_SIZE : Int
deriving DecidableEq

/-- The globals as the module initializes them: `DEBUG = True`,
`MAX_SIZE = 100`. -/
def defaultGlobals : Globals :=
  { DEBUG := true, MAX_SIZE := 100 }

/-- The `Calculator` class: instances carry a `name` and a `value`
attribute, both set by `__init__`. -/
structure Calculator where
  name : String
  value : Int
deriving DecidableEq

/-- `Calculator.__init__(self, name)`: sets `self.name = name` and
`self.value = 0`. -/
def Calculator.init (g : Globals) (name : String) : Calculator :=
  { name := name, value := 0 }

/-- `Calculator.add(self, x, y)`: `return x + y`. The body contains no
assignment to `self`, so the state-transformer embedding returns the
receiver unchanged alongside the result. -/
def Calculator.add (g : Globals) (self : Calculator) (x y : Int) :
    Int × Calculator :=
  (x + y, self)

/-- `Calculator.multiply(a, b)` (a `@staticmethod`, hence no receiver):
`result = a * b; return result`. The `float` annotations are idealized as
exact rationals; no float rounding is observable in the file. -/
def Calculator.multiply (g : Globals) (a b : ℚ) : ℚ :=
  let result := a * b
  result

/-- A Python complex number, idealized with exact rational parts. -/
structure PyComplex where
  re : ℚ
  im : ℚ
deriving DecidableEq

/-- Coercion of a Python int into a complex, as in `3 + 4j`. -/
def PyComplex.ofInt (n : Int) : PyComplex :=
  { re := n, im := 0 }

/-- A pure imaginary literal such as `4j`. -/
def PyComplex.imagLit (q : ℚ) : PyComplex :=
  { re := 0, im := q }

/-- Python complex addition, used by `3 + 4j`. -/
def PyComplex.cadd (u v : PyComplex) : PyComplex :=
  { re := u.re + v.re, im := u.im + v.im }

/-- Python floor division `a // b`: rounds toward negative infinity, and
raises `ZeroDivisionError` when `b = 0`, modelled by `none`. -/
def pyFloorDiv (a b : Int) : Option Int :=
  if b = 0 then none else some (Int.fdiv a b)

/-- The local bindings of `main`, in source order. The field `c` embeds
the source variable named like Lean's calculation keyword. -/
structure MainLocals where
  c : Calculator
  message : String
  formatted : String
  raw_string : String
  byte_string : List Nat
  decimal : Int
  floating : ℚ
  hex_num : Int
  binary : Int
  octal : Int
  complex_num : PyComplex
  numbers : List Int
  total : Int
  x : Int
  y : Int
  z : Int
deriving DecidableEq

/-- `main()`: builds a `Calculator("MyCalc")`, binds the string and
numeric literals, sums `[1, 2, 3, 4, 5]`, prints the total, computes
`x = 10`, `y = x ** 2`, `z = y // 3`, prints `"Condition met"` when
`x > 5 and y < 200`, and returns the calculator. The embedding returns
the final locals together with the list of printed lines; the floor
division failure case propagates as `none`. (Namespaced because a
top-level `main` must have the entry-point type in Lean.) -/
def TestPython.main (g : Globals) : Option (MainLocals × List String) :=
  let c := Calculator.init g "MyCalc"
  let message := "Hello, World!"
  let addCall := Calculator.add g c 5 3
  let c := addCall.2
  let formatted := "The result is: " ++ toString addCall.1
  let raw_string := "C:\\Users\\path"
  let byte_string : List Nat := [98, 121, 116, 101, 115]
  let decimal : Int := 42
  let floating : ℚ := 3.14
  let hex_num : Int := 0xFF
  let binary : Int := 0b1010
  let octal : Int := 0o755
  let complex_num := PyComplex.cadd (PyComplex.ofInt 3) (PyComplex.imagLit 4)
  let numbers : List Int := [1, 2, 3, 4, 5]
  let total := numbers.sum
  let line1 := "Total: " ++ toString total
  let x : Int := 10
  let y := x ^ 2
  (pyFloorDiv y 3).bind fun z =>
    let output :=
      [line1] ++ (if decide (x > 5) && decide (y < 200) then ["Condition met"] else [])
    some ({ c := c, message := message, formatted := formatted,
            raw_string := raw_string, byte_string := byte_string,
            decimal := decimal, floating := floating, hex_num := hex_num,
            binary := binary, octal := octal, complex_num := complex_num,
            numbers := numbers, total := total, x := x, y := y, z := z },
          output)

/-- The fully evaluated locals of `main`. -/
def expectedLocals : MainLocals :=
  { c := { name := "MyCalc", value := 0 }
    message := "Hello, World!"
    formatted := "The result is: 8"
    raw_string := "C:\\Users\\path"
    byte_string := [98, 121, 116, 101, 115]
    decimal := 42
    floating := 3.14
    hex_num := 255
    binary := 10
    octal := 493
    complex_num := { re := 3, im := 4 }
    numbers := [1, 2, 3, 4, 5]
    total := 15
    x := 10
    y := 100
    z := 33 }

/-- The lines `main` prints, in order. -/
def expectedOutput : List String :=
  ["Total: 15", "Condition met"]

theorem main_eval_default :
    TestPython.main defaultGlobals = some (expectedLocals, expectedOutput) := by
  simp only [TestPython.main, Calculator.init, Calculator.add, pyFloorDiv,
    PyComplex.cadd, PyComplex.ofInt, PyComplex.imagLit, expectedLocals,
    expectedOutput, Option.bind]
  norm_num [MainLocals.mk.injEq, PyComplex.mk.injEq]
  decide

theorem main_eval (g : Globals) : TestPython.main g = some (expectedLocals, expectedOutput) :=
  Eq.trans (rfl : TestPython.main g = TestPython.main defaultGlobals) main_eval_default

/-- An atomic call on a constructed `Calculator`: either the instance
method `add` or the static method `multiply`. -/
inductive CalcOp where
  | add (x y : Int)
  | multiply (a b : ℚ)

/-- Performs one call against an instance, keeping the instance state the
call leaves behind: `add` returns its receiver component, and the static
`multiply` never touches the instance. -/
def runOp (g : Globals) (c : Calculator) : CalcOp → Calculator
  | .add x y => (Calculator.add g c x y).2
  | .multiply a b =>
      let _ := Calculator.multiply g a b
      c

/-- Performs a sequence of calls against an instance. -/
def runOps (g : Globals) (c : Calculator) : List CalcOp → Calculator
  | [] => c
  | op :: ops => runOps g (runOp g c op) ops

theorem runOp_eq (g : Globals) (c : Calculator) (op : CalcOp) :
    runOp g c op = c := by
  cases op <;> rfl

theorem runOps_eq (g : Globals) (c : Calculator) (ops : List CalcOp) :
    runOps g c ops = c := by
  induction ops generalizing c with
  | nil => rfl
  | cons op ops ih => rw [runOps, runOp_eq, ih]

/-- C1: for all integers `x`, `y`, `Calculator.add(x, y)` returns the
arithmetic sum `x + y`, and for all numbers `a`, `b` (idealized as exact
rationals), `Calculator.multiply(a, b)` returns the arithmetic product
`a * b`. -/
theorem calculator_arith_correct :
    (∀ (g : Globals) (self : Calculator) (x y : Int),
        (Calculator.add g self x y).1 = x + y) ∧
    (∀ (g : Globals) (a b : ℚ), Calculator.multiply g a b = a * b) :=
  ⟨fun _ _ _ _ => rfl, fun _ _ _ => rfl⟩

/-- C2: every operation in `main` is defined on its actual arguments (in
particular the floor division `y // 3` has a nonzero divisor) and `main`
terminates normally, i.e. evaluates to `some` result rather than the
error outcome `none`, under any values of the module globals. -/
theorem main_terminates_without_error (g : Globals) :
    (TestPython.main g).isSome = true := by
  rw [main_eval]
  rfl

/-- C3: for every string `name`, `Calculator(name)` yields an object whose
`name` field is the given string and whose `value` field is the integer
`0`. -/
theorem calculator_init_fields (g : Globals) (n : String) :
    (Calculator.init g n).name = n ∧ (Calculator.init g n).value = 0 :=
  ⟨rfl, rfl⟩

/-- C4: the bindings of `main` evaluate to exactly the stated literal
values: `message = "Hello, World!"`, `formatted = "The result is: 8"` (the
f-string), `raw_string` the raw path string, `byte_string` the bytes of
`"bytes"`, `decimal = 42`, `floating = 3.14`, `hex_num = 255`,
`binary = 10`, `octal = 493`, and `complex_num = 3 + 4i`. The static
method (`Calculator.multiply`, which takes no receiver) and the `and`
conditional (embedded with `&&` in `main`, whose true branch prints
`"Condition met"`) are realized in the definitions above. -/
theorem main_literal_bindings (g : Globals) :
    (TestPython.main g).map Prod.fst = some
      { c := { name := "MyCalc", value := 0 }
        message := "Hello, World!"
        formatted := "The result is: 8"
        raw_string := "C:\\Users\\path"
        byte_string := [98, 121, 116, 101, 115]
        decimal := 42
        floating := 3.14
        hex_num := 255
        binary := 10
        octal := 493
        complex_num := { re := 3, im := 4 }
        numbers := [1, 2, 3, 4, 5]
        total := 15
        x := 10
        y := 100
        z := 33 } := by
  rw [main_eval]
  rfl

/-- C5 counterexample: the claim that no function defined in the file has
observable behavior is false: `main` observably prints two lines,
`"Total: 15"` and `"Condition met"`. -/
theorem main_has_observable_output :
    (TestPython.main defaultGlobals).map Prod.snd = some ["Total: 15", "Condition met"] ∧
      (["Total: 15", "Condition met"] : List String) ≠ [] := by
  constructor
  · rw [main_eval]
    rfl
  · intro h
    exact List.noConfusion h

/-- C5 amended: the file's functions expose no state machine and reach no
failure path, and apart from `main`'s fixed printed output no observable
behavior exists: `add` never mutates its receiver, every function is
insensitive to the globals so behavior is a fixed constant, and `main`'s
sole observable effect is printing exactly `"Total: 15"` and
`"Condition met"`, never an error. -/
theorem sample_file_no_stateful_contract :
    (∀ (g : Globals) (self : Calculator) (x y : Int),
        (Calculator.add g self x y).2 = self) ∧
    (∀ (g : Globals), TestPython.main g = TestPython.main defaultGlobals) ∧
    (TestPython.main defaultGlobals).map Prod.snd = some ["Total: 15", "Condition met"] ∧
    (TestPython.main defaultGlobals).isSome = true := by
  refine ⟨fun _ _ _ _ => rfl, fun _ => rfl, ?_, ?_⟩
  · rw [main_eval]
    rfl
  · rw [main_eval]
    rfl

/-- C6: no global state influences behavior: `Calculator.add`,
`Calculator.multiply`, `Calculator.__init__` and `main` produce identical
results under any two values of the module globals `DEBUG` and
`MAX_SIZE`. -/
theorem globals_do_not_influence_behavior (g1 g2 : Globals) :
    (∀ (self : Calculator) (x y : Int),
        Calculator.add g1 self x y = Calculator.add g2 self x y) ∧
    (∀ (a b : ℚ), Calculator.multiply g1 a b = Calculator.multiply g2 a b) ∧
    (∀ (n : String), Calculator.init g1 n = Calculator.init g2 n) ∧
    TestPython.main g1 = TestPython.main g2 :=
  ⟨fun _ _ _ => rfl, fun _ _ => rfl, fun _ => rfl, rfl⟩

/-- C7: `main` is deterministic with fully determined output: under any
globals it prints exactly `"Total: 15"` followed by `"Condition met"` and
returns a `Calculator` whose `name` is `"MyCalc"` and whose `value` is
`0`. -/
theorem main_deterministic_output (g : Globals) :
    (TestPython.main g).map (fun r => (r.2, r.1.c)) =
      some (["Total: 15", "Condition met"],
        { name := "MyCalc", value := 0 : Calculator }) := by
  rw [main_eval]
  rfl

/-- C8: invariant preserved by every `Calculator` operation: after
`Calculator(name)` is constructed, any sequence of `add` and `multiply`
calls leaves the instance with `value = 0` and `name` equal to the string
passed to the constructor. -/
theorem calculator_invariant_preserved (g : Globals) (n : String)
    (ops : List CalcOp) :
    (runOps g (Calculator.init g n) ops).value = 0 ∧
    (runOps g (Calculator.init g n) ops).name = n := by
  rw [runOps_eq]
  exact ⟨rfl, rfl⟩

/-- C9: algebraic laws of the fixture's arithmetic: `add` is commutative
with identity `0`, and `multiply` is commutative with identity `1`. -/
theorem calculator_algebraic_laws (g : Globals) :
    (∀ (self : Calculator) (x y : Int),
        (Calculator.add g self x y).1 = (Calculator.add g self y x).1) ∧
    (∀ (self : Calculator) (x : Int), (Calculator.add g self x 0).1 = x) ∧
    (∀ (a b : ℚ), Calculator.multiply g a b = Calculator.multiply g b a) ∧
    (∀ (a : ℚ), Calculator.multiply g a 1 = a) := by
  refine ⟨fun self x y => ?_, fun self x => ?_, fun a b => ?_, fun a => ?_⟩
  · show x + y = y + x
    exact Int.add_comm x y
  · show x + 0 = x
    exact Int.add_zero x
  · show a * b = b * a
    exact mul_comm a b
  · show a * 1 = a
    exact mul_one a
